import Mathlib

/-!
Shallow embedding of `scripts/drive_playground/drive_playground_service.py`:
a small FastAPI service exposing list/read/write over a single Google Drive
folder, guarded by a static API key.

Modelling conventions:
* Python strings are Lean `String`; `str.strip` / `str.removeprefix` are
  re-implemented structurally over `String.data` so concrete instances
  reduce in the kernel (`pyStrip`, `removePrefixPy`).
* The remote Drive provider is modelled as a `DriveState` (a list of stored
  files plus a fresh-id counter); the query strings the service builds for
  `files().list` are modelled by their structured parameters
  (parent, optional exact-name filter, folder-only filter, non-trashed,
  page size), interpreted by `driveList`.
* Every endpoint returns, beside its HTTP outcome, the list of side effects
  it performed (client construction and provider calls, in order), so that
  claims of the form "no provider call is made" are statements about that
  list. `write_file` additionally returns the provider state it leaves
  behind.
* Exceptions are an error type `ServiceError`; FastAPI maps an
  `HTTPException` to its status and any other uncaught exception to 500
  (`respStatus`).
* Provider pagination tokens and byte-level UTF-8 decoding are opaque to
  every claim under study and are not given semantics: file content is kept
  as text, and the continuation token of a list page is not modelled.
-/

set_option maxRecDepth 8000

namespace DrivePlayground

/-- Decidable equality on `Except`, so concrete runs of the embedded
service can be checked by `decide`. -/
instance {ε α : Type _} [DecidableEq ε] [DecidableEq α] : DecidableEq (Except ε α) := fun x y =>
  match x, y with
  | .ok a, .ok b =>
    if h : a = b then .isTrue (congrArg Except.ok h)
    else .isFalse (fun hh => h (Except.ok.inj hh))
  | .error a, .error b =>
    if h : a = b then .isTrue (congrArg Except.error h)
    else .isFalse (fun hh => h (Except.error.inj hh))
  | .ok _, .error _ => .isFalse (fun hh => Except.noConfusion hh)
  | .error _, .ok _ => .isFalse (fun hh => Except.noConfusion hh)

/-- Python `str.strip()`: remove leading and trailing whitespace.
Implemented structurally over the character list so that concrete
instances reduce in the kernel. -/
def pyStrip (s : String) : String :=
  ⟨((s.data.dropWhile Char.isWhitespace).reverse.dropWhile Char.isWhitespace).reverse⟩

/-- Python `str.removeprefix(p)`: drop `p` from the front when it is a
leading piece of the string, otherwise return the string unchanged. -/
def removePrefixPy (s p : String) : String :=
  if p.data.isPrefixOf s.data then ⟨s.data.drop p.data.length⟩ else s

/-- Python `x or y` on an optional string `x` and string `y`:
`None` and `""` are falsy. -/
def pyOrStr (x : Option String) (y : String) : String :=
  match x with
  | none => y
  | some s => if s = "" then y else s

/-- Python `' / '.join`-style separator join, structural. -/
def joinSep (sep : String) : List String → String
  | [] => ""
  | [x] => x
  | x :: y :: xs => x ++ sep ++ joinSep sep (y :: xs)

/-- Exceptions raised by the service.  `http` is FastAPI `HTTPException`;
the others model Python exception classes that escape the handler. -/
inductive ServiceError where
  | http (status : Nat) (detail : String)
  | runtimeError (msg : String)
  | valueError (msg : String)
  | fileNotFoundError (msg : String)
  | providerHttpError (msg : String)
deriving DecidableEq, Repr

/-- HTTP status FastAPI reports for an escaped exception:
an `HTTPException` keeps its status, anything else becomes a 500. -/
def errStatus : ServiceError → Nat
  | .http s _ => s
  | .runtimeError _ => 500
  | .valueError _ => 500
  | .fileNotFoundError _ => 500
  | .providerHttpError _ => 500

/-- HTTP status of a handler outcome (200 on success). -/
def respStatus {α : Type} : Except ServiceError α → Nat
  | .ok _ => 200
  | .error e => errStatus e

/-- The environment variables the service reads (`None` = unset). -/
structure Env where
  drivePlaygroundApiKey : Option String
  drivePlaygroundFolderId : Option String
deriving DecidableEq, Repr

/-- `get_api_key`: read and strip `DRIVE_PLAYGROUND_API_KEY`; an empty or
unset value raises `RuntimeError`. -/
def get_api_key (env : Env) : Except ServiceError String :=
  let key := pyStrip (env.drivePlaygroundApiKey.getD "")
  if key = "" then
    .error (.runtimeError "Set DRIVE_PLAYGROUND_API_KEY in the environment.")
  else .ok key

/-- `require_api_key`: compare `x_api_key or bearer` against the configured
key, where `bearer` is the stripped Authorization header with the literal
scheme text removed; mismatch raises `HTTPException(401)`. -/
def require_api_key (env : Env) (xApiKey authorization : Option String) :
    Except ServiceError Unit :=
  match get_api_key env with
  | .error e => .error e
  | .ok key =>
    let bearer := removePrefixPy (pyStrip (authorization.getD "")) "Bearer "
    if pyOrStr xApiKey bearer ≠ key then
      .error (.http 401 "Invalid or missing API key")
    else .ok ()

/-- A file as the remote provider stores it.  `content` is kept as text
(the service reads and writes text bodies). -/
structure StoredFile where
  id : String
  name : String
  mimeType : String
  parents : List String
  trashed : Bool
  content : String
deriving DecidableEq, Repr

/-- The remote provider state: stored files plus a counter from which the
provider mints fresh identifiers. -/
structure DriveState where
  files : List StoredFile
  nextIdNum : Nat
deriving DecidableEq, Repr

def folderMimeType : String := "application/vnd.google-apps.folder"

/-- Provider semantics of the query strings the service builds:
`'parent' in parents and [name = 'n' and] [mimeType = folder and] trashed = false`. -/
def matchesQuery (parentId : String) (nameFilter : Option String)
    (folderOnly : Bool) (f : StoredFile) : Bool :=
  f.parents.contains parentId && !f.trashed &&
    (match nameFilter with
     | none => true
     | some n => f.name == n) &&
    (!folderOnly || f.mimeType == folderMimeType)

/-- Provider semantics of `files().list(q=..., pageSize=...)`: the matching
files in provider order, truncated to the page size. -/
def driveList (st : DriveState) (parentId : String) (nameFilter : Option String)
    (folderOnly : Bool) (pageSize : Nat) : List StoredFile :=
  (st.files.filter (matchesQuery parentId nameFilter folderOnly)).take pageSize

/-- Provider semantics of `files().get(fileId=...)`: metadata lookup;
`none` models the provider raising for an unknown identifier. -/
def driveGetMeta (st : DriveState) (fileId : String) : Option StoredFile :=
  st.files.find? (fun f => f.id == fileId)

/-- Identifier the provider mints for the next created file. -/
def freshId (st : DriveState) : String := "generated-" ++ toString st.nextIdNum

/-- One call to the storage provider, with the arguments the service sent. -/
inductive ProviderCall where
  | filesList (parentId : String) (nameFilter : Option String) (folderOnly : Bool)
      (pageSize : Nat) (pageToken : Option String)
  | filesGetMeta (fileId : String)
  | filesGetMedia (fileId : String)
  | filesUpdate (fileId : String) (bodyName : Option String)
      (bodyParents : Option (List String)) (hasMedia : Bool)
  | filesCreate (name : String) (mimeType : String) (parents : List String) (hasMedia : Bool)
deriving DecidableEq, Repr

/-- A side effect of a request: constructing the provider client
(`get_drive_service` succeeding) or one provider call. -/
inductive Effect where
  | clientBuild
  | providerCall (c : ProviderCall)
deriving DecidableEq, Repr

def callEffects (cs : List ProviderCall) : List Effect := cs.map Effect.providerCall

/-- `PLAYGROUND_PATH`: folder names walked from the Drive root when no
explicit folder id is configured. -/
def PLAYGROUND_PATH : List String := ["Personal", "AI Research", "OpenClaw Playground"]

/-- The `ValueError` message raised when a step of the path walk finds no
matching folder (the f-string at lines 119-122 of the source). -/
def folderNotFoundMessage (stepName : String) : String :=
  "Folder not found: " ++ joinSep " / " PLAYGROUND_PATH ++ ". " ++
    "Missing after: " ++ stepName ++
    ". Create the folder in Drive or set DRIVE_PLAYGROUND_FOLDER_ID to the folder ID."

/-- The loop of `get_playground_folder_id`: walk the path names, querying at
each step for a non-trashed folder child of the current parent with the
exact name (page size 1), descending into the first match. -/
def resolvePathLoop (st : DriveState) :
    String → List String → List ProviderCall →
    Except ServiceError String × List ProviderCall
  | parentId, [], calls => (.ok parentId, calls)
  | parentId, name :: rest, calls =>
    let call := ProviderCall.filesList parentId (some name) true 1 none
    match driveList st parentId (some name) true 1 with
    | [] => (.error (.valueError (folderNotFoundMessage name)), calls ++ [call])
    | f :: _ => resolvePathLoop st f.id rest (calls ++ [call])

/-- `get_playground_folder_id`: return the stripped configured id when
non-empty, else resolve `PLAYGROUND_PATH` from the root.  Also returns the
provider calls made. -/
def get_playground_folder_id (env : Env) (st : DriveState) :
    Except ServiceError String × List ProviderCall :=
  let folder_id := pyStrip (env.drivePlaygroundFolderId.getD "")
  if folder_id ≠ "" then (.ok folder_id, [])
  else resolvePathLoop st "root" PLAYGROUND_PATH []

/-- A loaded OAuth credential, reduced to the fields the control flow of
`get_drive_service` inspects. -/
structure Credential where
  valid : Bool
  expired : Bool
  hasRefreshToken : Bool
deriving DecidableEq, Repr, Inhabited

/-- The world `get_drive_service` runs in: environment blobs, the local
token file, and the outcomes of the refresh and interactive flows. -/
structure AuthWorld where
  envTokenJson : String
  envTokenParses : Bool
  envTokenCreds : Credential
  tokenFileExists : Bool
  tokenFileCreds : Credential
  refreshSucceeds : Bool
  refreshedCreds : Credential
  envCredentialsJson : String
  envCredentialsParses : Bool
  credsPathExists : Bool
  interactiveFlowCreds : Credential
deriving DecidableEq, Repr

/-- Outcome of `get_drive_service`: the credential the client is built
from, whether the interactive flow ran, and whether `token.json` was
written. -/
structure AuthResult where
  creds : Credential
  ranInteractiveFlow : Bool
  tokenFileWritten : Bool
deriving DecidableEq, Repr

/-- Lines 59-70 of `get_drive_service`: load a credential from the
environment token blob when set (a malformed blob is a `ValueError`), else
from the local token file when present, else none. -/
def loadInitialCreds (w : AuthWorld) : Except ServiceError (Option Credential) :=
  if pyStrip w.envTokenJson ≠ "" then
    if w.envTokenParses then .ok (some w.envTokenCreds)
    else .error (.valueError "GOOGLE_DRIVE_TOKEN_JSON is set but invalid. Paste the full contents of token.json (from a local OAuth run).")
  else if w.tokenFileExists then .ok (some w.tokenFileCreds)
  else .ok none

/-- Lines 71-72: refresh a loaded credential that is present, not valid,
expired and refreshable; refresh failure propagates. -/
def refreshStep (w : AuthWorld) : Option Credential → Except ServiceError (Option Credential)
  | some c =>
    if !c.valid && c.expired && c.hasRefreshToken then
      if w.refreshSucceeds then .ok (some w.refreshedCreds)
      else .error (.providerHttpError "token refresh failed")
    else .ok (some c)
  | none => .ok none

/-- Line 73: the interactive flow runs when no credential was obtained or
the one obtained is not valid. -/
def needsFlow : Option Credential → Bool
  | none => true
  | some c => !c.valid

/-- Lines 74-93: the interactive authorization flow, from the environment
client-config blob when set (malformed is a `ValueError`), else the local
client-secret file; absence of both is a `FileNotFoundError`. -/
def runInteractiveFlow (w : AuthWorld) : Except ServiceError Credential :=
  if pyStrip w.envCredentialsJson ≠ "" then
    if w.envCredentialsParses then .ok w.interactiveFlowCreds
    else .error (.valueError "GOOGLE_DRIVE_CREDENTIALS_JSON is set but invalid. Paste the full contents of credentials.json.")
  else if w.credsPathExists then .ok w.interactiveFlowCreds
  else .error (.fileNotFoundError "Google OAuth credentials not found. For Railway: set GOOGLE_DRIVE_TOKEN_JSON (full token.json from a local OAuth run). For local first run: save credentials.json here or set GOOGLE_DRIVE_CREDENTIALS_JSON.")

/-- `get_drive_service` (lines 57-97): load, refresh, optionally run the
interactive flow; after a successful flow the token is written to the
local token file only when the environment token blob was blank AND the
token file did not already exist (line 94). -/
def get_drive_service (w : AuthWorld) : Except ServiceError AuthResult :=
  match loadInitialCreds w with
  | .error e => .error e
  | .ok creds0 =>
    match refreshStep w creds0 with
    | .error e => .error e
    | .ok creds1 =>
      if needsFlow creds1 then
        match runInteractiveFlow w with
        | .error e => .error e
        | .ok c =>
          .ok { creds := c, ranInteractiveFlow := true,
                tokenFileWritten := (pyStrip w.envTokenJson == "") && !w.tokenFileExists }
      else
        .ok { creds := creds1.getD default, ranInteractiveFlow := false,
              tokenFileWritten := false }

/-- Module import / app construction.  No validation of
`DRIVE_PLAYGROUND_API_KEY` happens at module scope: `get_api_key` is
invoked only inside `require_api_key`, per request, so building the app
succeeds for every environment. -/
def startupApp (_env : Env) : Except ServiceError Unit := .ok ()

/-- Response shape of `GET /list` (the pagination token of the provider is
not modelled; see file header). -/
structure ListResponse where
  files : List StoredFile
  nextPageToken : Option String
deriving DecidableEq, Repr

/-- The body of the `/list` handler (lines 155-173), run once FastAPI has
accepted the query parameters: check the key, build the client, resolve
the folder, and list its non-trashed children. -/
def list_files_handler (env : Env) (w : AuthWorld) (st : DriveState)
    (xApiKey authorization : Option String)
    (pageToken : Option String) (ps : Int) :
    Except ServiceError ListResponse × List Effect :=
  match require_api_key env xApiKey authorization with
  | .error e => (.error e, [])
  | .ok () =>
    match get_drive_service w with
    | .error e => (.error e, [])
    | .ok _ =>
      match get_playground_folder_id env st with
      | (.error e, calls) => (.error e, .clientBuild :: callEffects calls)
      | (.ok folderId, calls) =>
        let listCall := ProviderCall.filesList folderId none false ps.toNat
          (some (pyOrStr pageToken ""))
        (.ok { files := driveList st folderId none false ps.toNat,
               nextPageToken := none },
         .clientBuild :: callEffects (calls ++ [listCall]))

/-- `GET /list` (lines 148-173).  FastAPI validates
`page_size = Query(50, ge=1, le=100)` — default 50, rejected with a 422
validation error when out of range — before the handler body runs. -/
def list_files (env : Env) (w : AuthWorld) (st : DriveState)
    (xApiKey authorization : Option String)
    (pageToken : Option String) (pageSize : Option Int) :
    Except ServiceError ListResponse × List Effect :=
  let ps := pageSize.getD 50
  if ps < 1 ∨ ps > 100 then
    (.error (.http 422 "page_size must be between 1 and 100"), [])
  else
    list_files_handler env w st xApiKey authorization pageToken ps

/-- `GET /files/{file_id}/content` (lines 176-202): check the key, build
the client, resolve the folder, fetch metadata; when the folder id is not
among the parents of the file, raise `HTTPException(403)` without
downloading; otherwise download and return the text. -/
def read_file (env : Env) (w : AuthWorld) (st : DriveState) (fileId : String)
    (xApiKey authorization : Option String) :
    Except ServiceError String × List Effect :=
  match require_api_key env xApiKey authorization with
  | .error e => (.error e, [])
  | .ok () =>
    match get_drive_service w with
    | .error e => (.error e, [])
    | .ok _ =>
      match get_playground_folder_id env st with
      | (.error e, calls) => (.error e, .clientBuild :: callEffects calls)
      | (.ok folderId, calls) =>
        let metaCall := ProviderCall.filesGetMeta fileId
        match driveGetMeta st fileId with
        | none =>
          (.error (.providerHttpError ("file not found: " ++ fileId)),
           .clientBuild :: callEffects (calls ++ [metaCall]))
        | some f =>
          if !(f.parents.contains folderId) then
            (.error (.http 403 "File is not a direct child of the Playground folder. Use /list to get file IDs."),
             .clientBuild :: callEffects (calls ++ [metaCall]))
          else
            (.ok f.content,
             .clientBuild :: callEffects
               (calls ++ [metaCall, ProviderCall.filesGetMedia fileId]))

/-- Request body of `POST /write`. -/
structure WriteBody where
  name : String
  content : String
  mime_type : String
deriving DecidableEq, Repr

/-- Response of `POST /write`. -/
structure WriteResponse where
  id : String
  action : String
deriving DecidableEq, Repr

/-- Provider semantics of `files().update(fileId, body={"name": n})`. -/
def driveUpdateName (st : DriveState) (fileId n : String) : DriveState :=
  { st with files := st.files.map fun f => if f.id == fileId then { f with name := n } else f }

/-- Provider semantics of `files().update(fileId, media_body=...)`:
replace the content, touching no metadata. -/
def driveUpdateMedia (st : DriveState) (fileId content : String) : DriveState :=
  { st with files := st.files.map fun f => if f.id == fileId then { f with content := content } else f }

/-- Provider semantics of `files().create(body=meta, media_body=...)`:
store a new non-trashed file with the requested metadata under a fresh
identifier and return that identifier. -/
def driveCreate (st : DriveState) (name mimeType : String) (parents : List String)
    (content : String) : String × DriveState :=
  let newId := freshId st
  (newId,
   { files := st.files ++ [{ id := newId, name := name, mimeType := mimeType,
                             parents := parents, trashed := false, content := content }],
     nextIdNum := st.nextIdNum + 1 })

/-- `POST /write` (lines 211-244): check the key, build the client, resolve
the folder, look up a non-trashed child with the exact requested name
(page size 1).  When found: update its name, then its media, and answer
`updated` with its id.  When not found: create a file with the requested
name and mime type and the folder as sole parent, and answer `created`
with the fresh id.  Returns outcome, effects, and the resulting provider
state. -/
def write_file (env : Env) (w : AuthWorld) (st : DriveState) (body : WriteBody)
    (xApiKey authorization : Option String) :
    Except ServiceError WriteResponse × List Effect × DriveState :=
  match require_api_key env xApiKey authorization with
  | .error e => (.error e, [], st)
  | .ok () =>
    match get_drive_service w with
    | .error e => (.error e, [], st)
    | .ok _ =>
      match get_playground_folder_id env st with
      | (.error e, calls) => (.error e, .clientBuild :: callEffects calls, st)
      | (.ok folderId, calls) =>
        let lookupCall := ProviderCall.filesList folderId (some body.name) false 1 none
        match driveList st folderId (some body.name) false 1 with
        | f :: _ =>
          let st2 := driveUpdateMedia (driveUpdateName st f.id body.name) f.id body.content
          (.ok { id := f.id, action := "updated" },
           .clientBuild :: callEffects (calls ++ [lookupCall,
             ProviderCall.filesUpdate f.id (some body.name) none false,
             ProviderCall.filesUpdate f.id none none true]),
           st2)
        | [] =>
          let res := driveCreate st body.name body.mime_type [folderId] body.content
          (.ok { id := res.1, action := "created" },
           .clientBuild :: callEffects (calls ++ [lookupCall,
             ProviderCall.filesCreate body.name body.mime_type [folderId] true]),
           res.2)

end DrivePlayground

namespace DrivePlayground

def envOK : Env :=
  { drivePlaygroundApiKey := some "secret123", drivePlaygroundFolderId := some "fid-play" }

def envPath : Env :=
  { drivePlaygroundApiKey := some "secret123", drivePlaygroundFolderId := none }

def envNoKey : Env :=
  { drivePlaygroundApiKey := none, drivePlaygroundFolderId := some "fid-play" }

def credValid : Credential := { valid := true, expired := false, hasRefreshToken := true }

def credStale : Credential := { valid := false, expired := false, hasRefreshToken := false }

def worldOK : AuthWorld :=
  { envTokenJson := "tok", envTokenParses := true, envTokenCreds := credValid,
    tokenFileExists := false, tokenFileCreds := credStale,
    refreshSucceeds := true, refreshedCreds := credValid,
    envCredentialsJson := "", envCredentialsParses := true,
    credsPathExists := false, interactiveFlowCreds := credValid }

def worldStaleToken : AuthWorld :=
  { envTokenJson := "", envTokenParses := true, envTokenCreds := credValid,
    tokenFileExists := true, tokenFileCreds := credStale,
    refreshSucceeds := true, refreshedCreds := credValid,
    envCredentialsJson := "", envCredentialsParses := true,
    credsPathExists := true, interactiveFlowCreds := credValid }

def fileNote : StoredFile :=
  { id := "id-note", name := "note.txt", mimeType := "text/plain",
    parents := ["fid-play"], trashed := false, content := "hi" }

def fileOutside : StoredFile :=
  { id := "id-out", name := "other.txt", mimeType := "text/plain",
    parents := ["fid-other"], trashed := false, content := "secret" }

def stSample : DriveState := { files := [fileNote, fileOutside], nextIdNum := 7 }

def stEmpty : DriveState := { files := [], nextIdNum := 0 }

end DrivePlayground

namespace DrivePlayground

/-- Recognizer for `files().list` calls. -/
def ProviderCall.isFilesList : ProviderCall → Bool
  | .filesList _ _ _ _ _ => true
  | _ => false

theorem resolvePathLoop_calls_filesList (st : DriveState) :
    ∀ (names : List String) (parentId : String) (acc : List ProviderCall),
      (∀ c ∈ acc, c.isFilesList = true) →
      ∀ c ∈ (resolvePathLoop st parentId names acc).2, c.isFilesList = true := by
  intro names
  induction names with
  | nil =>
    intro parentId acc hacc c hc
    exact hacc c hc
  | cons name rest ih =>
    intro parentId acc hacc c hc
    rw [resolvePathLoop] at hc
    cases hdl : driveList st parentId (some name) true 1 with
    | nil =>
      rw [hdl] at hc
      simp only [List.mem_append, List.mem_singleton] at hc
      rcases hc with hc | hc
      · exact hacc c hc
      · subst hc; rfl
    | cons f fs =>
      rw [hdl] at hc
      refine ih f.id (acc ++ [ProviderCall.filesList parentId (some name) true 1 none]) ?_ c hc
      intro d hd
      simp only [List.mem_append, List.mem_singleton] at hd
      rcases hd with hd | hd
      · exact hacc d hd
      · subst hd; rfl

theorem get_playground_folder_id_calls_filesList (env : Env) (st : DriveState) :
    ∀ c ∈ (get_playground_folder_id env st).2, c.isFilesList = true := by
  intro c hc
  simp only [get_playground_folder_id] at hc
  split at hc
  · simp at hc
  · exact resolvePathLoop_calls_filesList st PLAYGROUND_PATH "root" []
      (by intro d hd; simp at hd) c hc

/-- The outcome of the path walk does not depend on the accumulated call
log — only the calls component does. -/
theorem resolvePathLoop_fst_acc (st : DriveState) :
    ∀ (names : List String) (parentId : String) (acc acc' : List ProviderCall),
      (resolvePathLoop st parentId names acc).1 = (resolvePathLoop st parentId names acc').1 := by
  intro names
  induction names with
  | nil => intro parentId acc acc'; rfl
  | cons name rest ih =>
    intro parentId acc acc'
    simp only [resolvePathLoop]
    cases hdl : driveList st parentId (some name) true 1 with
    | nil => rfl
    | cons f fs => exact ih f.id _ _

/-- Any failure of the path walk pinpoints the step that failed: the walked
names decompose as `pre ++ name :: suf` where the walk succeeds through
`pre` (reaching parent `p`), the query for `name` under `p` finds zero
matching non-trashed folder children, and the error is the not-found
message for exactly that `name`. -/
theorem resolvePathLoop_error_shape (st : DriveState) :
    ∀ (names : List String) (parentId : String) (acc : List ProviderCall) (e : ServiceError),
      (resolvePathLoop st parentId names acc).1 = .error e →
      ∃ pre name suf p, names = pre ++ name :: suf
        ∧ (resolvePathLoop st parentId pre []).1 = .ok p
        ∧ driveList st p (some name) true 1 = []
        ∧ e = .valueError (folderNotFoundMessage name) := by
  intro names
  induction names with
  | nil =>
    intro parentId acc e he
    rw [resolvePathLoop] at he
    exact absurd he (by simp)
  | cons name rest ih =>
    intro parentId acc e he
    rw [resolvePathLoop] at he
    cases hdl : driveList st parentId (some name) true 1 with
    | nil =>
      rw [hdl] at he
      simp only at he
      exact ⟨[], name, rest, parentId, rfl, rfl, hdl, (Except.error.inj he).symm⟩
    | cons f fs =>
      rw [hdl] at he
      obtain ⟨pre, nm, suf, p, hsplit, hok, hempty, hne⟩ :=
        ih f.id (acc ++ [ProviderCall.filesList parentId (some name) true 1 none]) e he
      refine ⟨name :: pre, nm, suf, p, by rw [hsplit]; rfl, ?_, hempty, hne⟩
      simp only [resolvePathLoop, hdl]
      rw [resolvePathLoop_fst_acc st pre f.id
        ([] ++ [ProviderCall.filesList parentId (some name) true 1 none]) []]
      exact hok

end DrivePlayground

namespace DrivePlayground

/-- C6: with a secret configured, `require_api_key` accepts a request
exactly when the resolved candidate — the dedicated `X-Api-Key` header when
non-empty, else the stripped `Authorization` header with the literal
`Bearer ` scheme text removed — equals the configured secret; a bearer
header carrying the secret is authorized; and with both headers absent the
candidate is the empty string and the outcome is the 401 error. -/
theorem api_key_gate_semantics (env : Env) (key : String) (x a : Option String)
    (hk : get_api_key env = .ok key) :
    (require_api_key env x a = .ok () ↔
       pyOrStr x (removePrefixPy (pyStrip (a.getD "")) "Bearer ") = key)
    ∧ (∀ b : String, removePrefixPy (pyStrip b) "Bearer " = key →
         require_api_key env none (some b) = .ok ())
    ∧ pyOrStr none (removePrefixPy (pyStrip ((none : Option String).getD "")) "Bearer ") = ""
    ∧ require_api_key env none none = .error (.http 401 "Invalid or missing API key") := by
  have hkeyne : key ≠ "" := by
    simp only [get_api_key] at hk
    split at hk
    · exact absurd hk (by simp)
    · rename_i hne
      rw [← Except.ok.inj hk]
      exact hne
  have hempty : pyOrStr none (removePrefixPy (pyStrip ((none : Option String).getD ""))
      "Bearer ") = "" := by decide
  refine ⟨?_, ?_, hempty, ?_⟩
  · by_cases hc : pyOrStr x (removePrefixPy (pyStrip (a.getD "")) "Bearer ") = key
    · simp [require_api_key, hk, hc]
    · simp [require_api_key, hk, hc]
  · intro b hb
    simp [require_api_key, hk, pyOrStr, hb]
  · simp only [require_api_key, hk]
    rw [if_pos]
    rw [hempty]
    exact fun h => hkeyne h.symm

/-- C6 witness: the gate at concrete inputs — a bearer header carrying the
configured secret is accepted. -/
theorem api_key_gate_semantics_witness :
    require_api_key envOK none (some "Bearer secret123") = .ok () :=
  (api_key_gate_semantics envOK "secret123" none (some "Bearer secret123")
    (by decide)).2.1 "Bearer secret123" (by decide)

end DrivePlayground

namespace DrivePlayground

/-- C2 counterexample: a `/list` request that supplies no secret at all but
carries an out-of-range `page_size` is rejected by FastAPI request
validation with 422, not 401 — so "every request ... lacking the secret
gets 401" fails as stated.  (No provider call is made either way.) -/
theorem missing_key_list_not_always_401 :
    list_files envOK worldOK stSample none none none (some 0) =
      (.error (.http 422 "page_size must be between 1 and 100"), [])
    ∧ respStatus (list_files envOK worldOK stSample none none none (some 0)).1 ≠ 401 := by
  exact ⟨by decide, by decide⟩

/-- C2 amended: for a request whose resolved candidate secret differs from
the configured one, `/files/{id}/content` and `/write` respond 401, and
`/list` responds 401 provided its `page_size` passes request validation
(an out-of-range `page_size` is rejected 422 before the authorization
check runs); in every case the side-effect list is empty — no provider
call is made and no provider client is constructed, since the
authorization check precedes both. -/
theorem missing_key_yields_401_no_provider_call
    (env : Env) (key : String) (x a : Option String)
    (hk : get_api_key env = .ok key)
    (hbad : pyOrStr x (removePrefixPy (pyStrip (a.getD "")) "Bearer ") ≠ key) :
    (∀ w st tok ps, 1 ≤ (ps.getD 50 : Int) → (ps.getD 50 : Int) ≤ 100 →
        list_files env w st x a tok ps =
          (.error (.http 401 "Invalid or missing API key"), []))
    ∧ (∀ w st tok ps, (list_files env w st x a tok ps).2 = [])
    ∧ (∀ w st fid, read_file env w st fid x a =
        (.error (.http 401 "Invalid or missing API key"), []))
    ∧ (∀ w st body, write_file env w st body x a =
        (.error (.http 401 "Invalid or missing API key"), [], st)) := by
  have hreq : require_api_key env x a = .error (.http 401 "Invalid or missing API key") := by
    simp [require_api_key, hk, hbad]
  have hlist : ∀ w st tok ps, 1 ≤ (ps.getD 50 : Int) → (ps.getD 50 : Int) ≤ 100 →
      list_files env w st x a tok ps =
        (.error (.http 401 "Invalid or missing API key"), []) := by
    intro w st tok ps h1 h2
    have hval : ¬((ps.getD 50 : Int) < 1 ∨ (ps.getD 50 : Int) > 100) := by omega
    simp [list_files, hval, list_files_handler, hreq]
  refine ⟨hlist, ?_, ?_, ?_⟩
  · intro w st tok ps
    by_cases hval : (ps.getD 50 : Int) < 1 ∨ (ps.getD 50 : Int) > 100
    · simp [list_files, hval]
    · simp [list_files, hval, list_files_handler, hreq]
  · intro w st fid
    simp [read_file, hreq]
  · intro w st body
    simp [write_file, hreq]

/-- C2 witness: a read request with no headers against a configured
service is answered 401 with no side effects. -/
theorem missing_key_yields_401_no_provider_call_witness :
    read_file envOK worldOK stSample "id-note" none none =
      (.error (.http 401 "Invalid or missing API key"), []) :=
  (missing_key_yields_401_no_provider_call envOK "secret123" none none
    (by decide) (by decide)).2.2.1 worldOK stSample "id-note"

end DrivePlayground

namespace DrivePlayground

/-- C8: a `/list` request with `page_size` outside `[1,100]` is rejected by
request validation with no side effects at all — in particular no provider
call; an in-range `page_size` proceeds into the handler body, and an
absent `page_size` proceeds with the default 50. -/
theorem page_size_validated_before_provider_calls :
    (∀ env w st x a tok (ps : Int), (ps < 1 ∨ ps > 100) →
       list_files env w st x a tok (some ps) =
         (.error (.http 422 "page_size must be between 1 and 100"), []))
    ∧ (∀ env w st x a tok (ps : Int), 1 ≤ ps → ps ≤ 100 →
       list_files env w st x a tok (some ps) = list_files_handler env w st x a tok ps)
    ∧ (∀ env w st x a tok,
       list_files env w st x a tok none = list_files_handler env w st x a tok 50) := by
  refine ⟨?_, ?_, ?_⟩
  · intro env w st x a tok ps h
    simp only [list_files, Option.getD_some]
    rw [if_pos h]
  · intro env w st x a tok ps h1 h2
    have h : ¬(ps < 1 ∨ ps > 100) := by omega
    simp only [list_files, Option.getD_some]
    rw [if_neg h]
  · intro env w st x a tok
    simp only [list_files, Option.getD_none]
    rw [if_neg (by omega)]

/-- C8 witness: `page_size = 101` is rejected 422 with no side effects. -/
theorem page_size_validated_before_provider_calls_witness :
    list_files envOK worldOK stSample none none none (some 101) =
      (.error (.http 422 "page_size must be between 1 and 100"), []) :=
  page_size_validated_before_provider_calls.1 envOK worldOK stSample none none none 101
    (by omega)

/-- C5 counterexample: with `DRIVE_PLAYGROUND_API_KEY` unset, building the
app succeeds (no configuration check runs at module scope), and the
configuration error is instead raised inside the request: an authenticated
route fails at request time with the `RuntimeError`, surfaced as 500. -/
theorem api_key_absence_not_checked_at_startup :
    startupApp envNoKey = .ok ()
    ∧ (list_files envNoKey worldOK stSample none none none none).1 =
        .error (.runtimeError "Set DRIVE_PLAYGROUND_API_KEY in the environment.")
    ∧ respStatus (list_files envNoKey worldOK stSample none none none none).1 = 500 := by
  exact ⟨rfl, by decide, by decide⟩

/-- C5 amended: the secret is read from the environment on each request
inside the authorization check, not once at startup; when it is unset or
blank, app construction still succeeds and every request to an
authenticated route fails at request time with the configuration
`RuntimeError` (surfaced as 500), with no provider call made. -/
theorem api_key_read_per_request (env : Env)
    (h : pyStrip (env.drivePlaygroundApiKey.getD "") = "") :
    startupApp env = .ok ()
    ∧ (∀ x a, require_api_key env x a =
        .error (.runtimeError "Set DRIVE_PLAYGROUND_API_KEY in the environment."))
    ∧ (∀ w st x a tok ps, 1 ≤ (ps.getD 50 : Int) → (ps.getD 50 : Int) ≤ 100 →
        list_files env w st x a tok ps =
          (.error (.runtimeError "Set DRIVE_PLAYGROUND_API_KEY in the environment."), []))
    ∧ (∀ w st fid x a, read_file env w st fid x a =
        (.error (.runtimeError "Set DRIVE_PLAYGROUND_API_KEY in the environment."), []))
    ∧ (∀ w st body x a, write_file env w st body x a =
        (.error (.runtimeError "Set DRIVE_PLAYGROUND_API_KEY in the environment."), [], st)) := by
  have hreq : ∀ x a, require_api_key env x a =
      .error (.runtimeError "Set DRIVE_PLAYGROUND_API_KEY in the environment.") := by
    intro x a
    simp [require_api_key, get_api_key, h]
  refine ⟨rfl, hreq, ?_, ?_, ?_⟩
  · intro w st x a tok ps h1 h2
    have hval : ¬((ps.getD 50 : Int) < 1 ∨ (ps.getD 50 : Int) > 100) := by omega
    simp [list_files, hval, list_files_handler, hreq]
  · intro w st fid x a
    simp [read_file, hreq]
  · intro w st body x a
    simp [write_file, hreq]

/-- C5 witness: the amended behavior at a concrete unset-key environment. -/
theorem api_key_read_per_request_witness :
    read_file envNoKey worldOK stSample "id-note" none none =
      (.error (.runtimeError "Set DRIVE_PLAYGROUND_API_KEY in the environment."), []) :=
  (api_key_read_per_request envNoKey (by decide)).2.2.2.1 worldOK stSample "id-note" none none

/-- C9: folder resolution is idempotent and needs no provider call when an
explicit identifier is configured: a configured identifier that is
non-blank after stripping is returned directly with an empty provider-call
list, and two resolutions of the same configuration against the same
provider state yield the same identifier. -/
theorem folder_resolution_idempotent (env : Env) (st : DriveState) :
    (∀ fid : String, pyStrip (env.drivePlaygroundFolderId.getD "") = fid → fid ≠ "" →
       get_playground_folder_id env st = (.ok fid, []))
    ∧ (∀ fid1 fid2 c1 c2,
        get_playground_folder_id env st = (.ok fid1, c1) →
        get_playground_folder_id env st = (.ok fid2, c2) →
        fid1 = fid2) := by
  constructor
  · intro fid hfid hne
    simp only [get_playground_folder_id, hfid]
    rw [if_pos hne]
  · intro fid1 fid2 c1 c2 h1 h2
    rw [h1] at h2
    exact Except.ok.inj (congrArg Prod.fst h2)

/-- C9 witness: the configured identifier is returned directly, with no
provider call. -/
theorem folder_resolution_idempotent_witness :
    get_playground_folder_id envOK stSample = (.ok "fid-play", []) :=
  (folder_resolution_idempotent envOK stSample).1 "fid-play" (by decide) (by decide)

/-- C4 counterexample: with no explicit folder id configured and an empty
Drive, the first step of the walk finds nothing; the raised error is a
`ValueError` naming the path and step, and the `/list` endpoint surfaces
it as 500, not as 404. -/
theorem folder_not_found_surfaces_500 :
    (get_playground_folder_id envPath stEmpty).1 =
      .error (.valueError (folderNotFoundMessage "Personal"))
    ∧ respStatus (list_files envPath worldOK stEmpty (some "secret123") none none none).1 = 500
    ∧ respStatus (list_files envPath worldOK stEmpty (some "secret123") none none none).1 ≠ 404 := by
  exact ⟨by decide, by decide, by decide⟩

/-- C4 amended: every failure of folder-path resolution is a `ValueError`
whose message names the full intended path and the very step at which
resolution failed: the path decomposes as `pre ++ name :: suf` where the
walk succeeds through `pre` (reaching parent `p`), the query for `name`
under `p` finds zero matching non-trashed folder children — that step is
where resolution failed — and the error is `folderNotFoundMessage name`
for exactly that `name` (the message spells out the joined full path and
the step).  Being an uncaught exception rather than an `HTTPException`,
it surfaces as 500, not 404. -/
theorem folder_resolution_failure_names_step (env : Env) (st : DriveState)
    (e : ServiceError)
    (h : (get_playground_folder_id env st).1 = .error e) :
    (∃ pre name suf p, PLAYGROUND_PATH = pre ++ name :: suf
        ∧ (resolvePathLoop st "root" pre []).1 = .ok p
        ∧ driveList st p (some name) true 1 = []
        ∧ e = .valueError (folderNotFoundMessage name))
    ∧ errStatus e = 500 := by
  simp only [get_playground_folder_id] at h
  split at h
  · exact absurd h (by simp)
  · obtain ⟨pre, name, suf, p, hsplit, hok, hempty, hne⟩ :=
      resolvePathLoop_error_shape st PLAYGROUND_PATH "root" [] e h
    exact ⟨⟨pre, name, suf, p, hsplit, hok, hempty, hne⟩, by rw [hne]; rfl⟩

/-- C4 witness: the amended statement at the concrete failing input — in
the empty Drive the walk fails at its first step, `Personal`. -/
theorem folder_resolution_failure_names_step_witness :
    (∃ pre name suf p, PLAYGROUND_PATH = pre ++ name :: suf
        ∧ (resolvePathLoop stEmpty "root" pre []).1 = .ok p
        ∧ driveList stEmpty p (some name) true 1 = []
        ∧ ServiceError.valueError (folderNotFoundMessage "Personal") =
            .valueError (folderNotFoundMessage name))
    ∧ errStatus (ServiceError.valueError (folderNotFoundMessage "Personal")) = 500 :=
  folder_resolution_failure_names_step envPath stEmpty
    (.valueError (folderNotFoundMessage "Personal")) (by decide)

end DrivePlayground

namespace DrivePlayground

/-- C1: for a read request that passes the API-key gate (and obtained a
provider client), when the metadata the provider returns for `file_id`
does not list the resolved scope folder among its parents, the response is
the 403 error, the only provider calls are the folder-resolution queries
and the single metadata lookup, and no media download of any file occurs,
so no file content is returned. -/
theorem read_outside_scope_forbidden (env : Env) (w : AuthWorld) (st : DriveState)
    (fileId : String) (x a : Option String) (folderId : String)
    (calls : List ProviderCall) (r : AuthResult) (f : StoredFile)
    (hauth : require_api_key env x a = .ok ())
    (hserv : get_drive_service w = .ok r)
    (hfold : get_playground_folder_id env st = (.ok folderId, calls))
    (hmeta : driveGetMeta st fileId = some f)
    (hout : f.parents.contains folderId = false) :
    read_file env w st fileId x a =
      (.error (.http 403
         "File is not a direct child of the Playground folder. Use /list to get file IDs."),
       .clientBuild :: callEffects (calls ++ [ProviderCall.filesGetMeta fileId]))
    ∧ respStatus (read_file env w st fileId x a).1 = 403
    ∧ (∀ g : String,
        Effect.providerCall (ProviderCall.filesGetMedia g) ∉ (read_file env w st fileId x a).2) := by
  have hout' : folderId ∉ f.parents := by simpa using hout
  have heq : read_file env w st fileId x a =
      (.error (.http 403
         "File is not a direct child of the Playground folder. Use /list to get file IDs."),
       .clientBuild :: callEffects (calls ++ [ProviderCall.filesGetMeta fileId])) := by
    simp [read_file, hauth, hserv, hfold, hmeta, hout, hout']
  refine ⟨heq, by rw [heq]; rfl, ?_⟩
  intro g hg
  rw [heq] at hg
  simp only [callEffects, List.mem_cons, List.mem_map] at hg
  rcases hg with hg | ⟨c, hc, hce⟩
  · exact Effect.noConfusion hg
  · have hcg : c = ProviderCall.filesGetMedia g := Effect.providerCall.inj hce
    subst hcg
    rcases List.mem_append.mp hc with hc | hc
    · have hlist := get_playground_folder_id_calls_filesList env st _ (by rw [hfold]; exact hc)
      simp [ProviderCall.isFilesList] at hlist
    · exact ProviderCall.noConfusion (List.mem_singleton.mp hc)

/-- C1 witness: a concrete read of a file whose parents exclude the scope
folder is answered 403, with the metadata lookup as the only provider call
and no media download. -/
theorem read_outside_scope_forbidden_witness :
    read_file envOK worldOK stSample "id-out" (some "secret123") none =
      (.error (.http 403
         "File is not a direct child of the Playground folder. Use /list to get file IDs."),
       .clientBuild :: callEffects ([] ++ [ProviderCall.filesGetMeta "id-out"])) :=
  (read_outside_scope_forbidden envOK worldOK stSample "id-out" (some "secret123") none
    "fid-play" []
    { creds := credValid, ranInteractiveFlow := false, tokenFileWritten := false }
    fileOutside
    (by decide) (by decide) (by decide) (by decide) (by decide)).1

end DrivePlayground

namespace DrivePlayground

/-- C3: for a write that passed the gate (with a client and a resolved
folder): when the provider query for non-trashed children of the scope
folder with exactly the requested name — exact string equality, first
match in provider order — returns a first match `f`, the action is
`updated` and the returned identifier is `f.id` (and `f` really is a
non-trashed child of the folder with that exact name); when it returns no
match, the action is `created`, the returned identifier is the fresh one
the provider mints, and the provider ends up storing under it a new file
with the requested name and content type and the scope folder as sole
parent. -/
theorem write_create_or_update (env : Env) (w : AuthWorld) (st : DriveState)
    (body : WriteBody) (x a : Option String) (folderId : String)
    (calls : List ProviderCall) (r : AuthResult)
    (hauth : require_api_key env x a = .ok ())
    (hserv : get_drive_service w = .ok r)
    (hfold : get_playground_folder_id env st = (.ok folderId, calls)) :
    (∀ (f : StoredFile) (rest : List StoredFile),
        st.files.filter (matchesQuery folderId (some body.name) false) = f :: rest →
        (write_file env w st body x a).1 = .ok { id := f.id, action := "updated" }
        ∧ f.name = body.name ∧ f.trashed = false ∧ f.parents.contains folderId = true)
    ∧ (st.files.filter (matchesQuery folderId (some body.name) false) = [] →
        (write_file env w st body x a).1 = .ok { id := freshId st, action := "created" }
        ∧ (write_file env w st body x a).2.2.files =
            st.files ++ [{ id := freshId st, name := body.name, mimeType := body.mime_type,
                           parents := [folderId], trashed := false, content := body.content }]) := by
  constructor
  · intro f rest hfilter
    have hmem : f ∈ st.files.filter (matchesQuery folderId (some body.name) false) := by
      rw [hfilter]; exact List.mem_cons_self _ _
    have hf : matchesQuery folderId (some body.name) false f = true :=
      List.of_mem_filter hmem
    have hdl : driveList st folderId (some body.name) false 1 = [f] := by
      simp [driveList, hfilter]
    have hprops : f.name = body.name ∧ f.trashed = false ∧ f.parents.contains folderId = true := by
      simp only [matchesQuery, Bool.and_eq_true, Bool.not_eq_true'] at hf
      refine ⟨by simpa using hf.1.2, hf.1.1.2, hf.1.1.1⟩
    refine ⟨?_, hprops⟩
    simp [write_file, hauth, hserv, hfold, hdl]
  · intro hfilter
    have hdl : driveList st folderId (some body.name) false 1 = [] := by
      simp [driveList, hfilter]
    constructor
    · simp [write_file, hauth, hserv, hfold, hdl, driveCreate]
    · simp [write_file, hauth, hserv, hfold, hdl, driveCreate]

/-- C3 witness: updating the existing `note.txt` keeps its identifier;
creating a fresh `new.txt` mints a new identifier and stores the file with
the folder as sole parent. -/
theorem write_create_or_update_witness :
    ((write_file envOK worldOK stSample
        { name := "note.txt", content := "hi again", mime_type := "text/plain" }
        (some "secret123") none).1 = .ok { id := "id-note", action := "updated" })
    ∧ ((write_file envOK worldOK stSample
        { name := "new.txt", content := "x", mime_type := "text/plain" }
        (some "secret123") none).1 = .ok { id := freshId stSample, action := "created" }) :=
  ⟨((write_create_or_update envOK worldOK stSample
      { name := "note.txt", content := "hi again", mime_type := "text/plain" }
      (some "secret123") none "fid-play" []
      { creds := credValid, ranInteractiveFlow := false, tokenFileWritten := false }
      (by decide) (by decide) (by decide)).1 fileNote [] (by decide)).1,
   ((write_create_or_update envOK worldOK stSample
      { name := "new.txt", content := "x", mime_type := "text/plain" }
      (some "secret123") none "fid-play" []
      { creds := credValid, ranInteractiveFlow := false, tokenFileWritten := false }
      (by decide) (by decide) (by decide)).2 (by decide)).1⟩

end DrivePlayground

namespace DrivePlayground

theorem write_updates_keep_id_parents (files : List StoredFile) (fid n c : String) :
    (((files.map (fun f => if f.id == fid then { f with name := n } else f)).map
        (fun f => if f.id == fid then { f with content := c } else f)).map
        (fun g => (g.id, g.parents)))
      = files.map (fun g => (g.id, g.parents)) := by
  induction files with
  | nil => rfl
  | cons hd tl ih =>
    simp only [List.map_cons, ih, List.cons.injEq, and_true]
    by_cases h : hd.id = fid <;> simp [h]

/-- C10: on the update path of a write, the two provider update calls carry
only the name (first call) and the media (second call) and neither sends a
parents field, and the id/parent structure of every stored file is
unchanged by the operation; no create call happens.  On the create path,
no update call happens, and the single create call sends exactly the
singleton parent list containing the resolved scope folder. -/
theorem write_never_touches_parents (env : Env) (w : AuthWorld) (st : DriveState)
    (body : WriteBody) (x a : Option String) (folderId : String)
    (calls : List ProviderCall) (r : AuthResult)
    (hauth : require_api_key env x a = .ok ())
    (hserv : get_drive_service w = .ok r)
    (hfold : get_playground_folder_id env st = (.ok folderId, calls)) :
    (∀ (f : StoredFile) (rest : List StoredFile),
        st.files.filter (matchesQuery folderId (some body.name) false) = f :: rest →
        (write_file env w st body x a).2.1 =
          .clientBuild :: callEffects (calls ++
            [ProviderCall.filesList folderId (some body.name) false 1 none,
             ProviderCall.filesUpdate f.id (some body.name) none false,
             ProviderCall.filesUpdate f.id none none true])
        ∧ ((write_file env w st body x a).2.2.files.map fun g => (g.id, g.parents)) =
            (st.files.map fun g => (g.id, g.parents))
        ∧ (∀ fid bn bp hm,
            Effect.providerCall (ProviderCall.filesUpdate fid bn bp hm) ∈
              (write_file env w st body x a).2.1 → bp = none)
        ∧ (∀ nm mt ps hm,
            Effect.providerCall (ProviderCall.filesCreate nm mt ps hm) ∉
              (write_file env w st body x a).2.1))
    ∧ (st.files.filter (matchesQuery folderId (some body.name) false) = [] →
        (write_file env w st body x a).2.1 =
          .clientBuild :: callEffects (calls ++
            [ProviderCall.filesList folderId (some body.name) false 1 none,
             ProviderCall.filesCreate body.name body.mime_type [folderId] true])
        ∧ (∀ fid bn bp hm,
            Effect.providerCall (ProviderCall.filesUpdate fid bn bp hm) ∉
              (write_file env w st body x a).2.1)
        ∧ (∀ nm mt ps hm,
            Effect.providerCall (ProviderCall.filesCreate nm mt ps hm) ∈
              (write_file env w st body x a).2.1 → ps = [folderId])) := by
  constructor
  · intro f rest hfilter
    have hdl : driveList st folderId (some body.name) false 1 = [f] := by
      simp [driveList, hfilter]
    have heff : (write_file env w st body x a).2.1 =
        .clientBuild :: callEffects (calls ++
          [ProviderCall.filesList folderId (some body.name) false 1 none,
           ProviderCall.filesUpdate f.id (some body.name) none false,
           ProviderCall.filesUpdate f.id none none true]) := by
      simp [write_file, hauth, hserv, hfold, hdl]
    have hstate : ((write_file env w st body x a).2.2.files.map fun g => (g.id, g.parents)) =
        (st.files.map fun g => (g.id, g.parents)) := by
      have : (write_file env w st body x a).2.2 =
          driveUpdateMedia (driveUpdateName st f.id body.name) f.id body.content := by
        simp [write_file, hauth, hserv, hfold, hdl]
      rw [this]
      simpa [driveUpdateName, driveUpdateMedia] using
        write_updates_keep_id_parents st.files f.id body.name body.content
    refine ⟨heff, hstate, ?_, ?_⟩
    · intro fid bn bp hm hmem
      rw [heff] at hmem
      simp only [callEffects, List.mem_cons, List.mem_map] at hmem
      rcases hmem with hmem | ⟨c, hc, hce⟩
      · exact Effect.noConfusion hmem
      · have hcu : c = ProviderCall.filesUpdate fid bn bp hm := Effect.providerCall.inj hce
        subst hcu
        rcases List.mem_append.mp hc with hc | hc
        · have hlist := get_playground_folder_id_calls_filesList env st _
            (by rw [hfold]; exact hc)
          simp [ProviderCall.isFilesList] at hlist
        · simp only [List.mem_cons] at hc
          rcases hc with hc | hc | hc | hc
          · exact ProviderCall.noConfusion hc
          · exact (ProviderCall.filesUpdate.inj hc).2.2.1
          · exact (ProviderCall.filesUpdate.inj hc).2.2.1
          · exact absurd hc (List.not_mem_nil _)
    · intro nm mt ps hm hmem
      rw [heff] at hmem
      simp only [callEffects, List.mem_cons, List.mem_map] at hmem
      rcases hmem with hmem | ⟨c, hc, hce⟩
      · exact Effect.noConfusion hmem
      · have hcu : c = ProviderCall.filesCreate nm mt ps hm := Effect.providerCall.inj hce
        subst hcu
        rcases List.mem_append.mp hc with hc | hc
        · have hlist := get_playground_folder_id_calls_filesList env st _
            (by rw [hfold]; exact hc)
          simp [ProviderCall.isFilesList] at hlist
        · simp only [List.mem_cons] at hc
          rcases hc with hc | hc | hc | hc
          · exact ProviderCall.noConfusion hc
          · exact ProviderCall.noConfusion hc
          · exact ProviderCall.noConfusion hc
          · exact absurd hc (List.not_mem_nil _)
  · intro hfilter
    have hdl : driveList st folderId (some body.name) false 1 = [] := by
      simp [driveList, hfilter]
    have heff : (write_file env w st body x a).2.1 =
        .clientBuild :: callEffects (calls ++
          [ProviderCall.filesList folderId (some body.name) false 1 none,
           ProviderCall.filesCreate body.name body.mime_type [folderId] true]) := by
      simp [write_file, hauth, hserv, hfold, hdl]
    refine ⟨heff, ?_, ?_⟩
    · intro fid bn bp hm hmem
      rw [heff] at hmem
      simp only [callEffects, List.mem_cons, List.mem_map] at hmem
      rcases hmem with hmem | ⟨c, hc, hce⟩
      · exact Effect.noConfusion hmem
      · have hcu : c = ProviderCall.filesUpdate fid bn bp hm := Effect.providerCall.inj hce
        subst hcu
        rcases List.mem_append.mp hc with hc | hc
        · have hlist := get_playground_folder_id_calls_filesList env st _
            (by rw [hfold]; exact hc)
          simp [ProviderCall.isFilesList] at hlist
        · simp only [List.mem_cons] at hc
          rcases hc with hc | hc | hc
          · exact ProviderCall.noConfusion hc
          · exact ProviderCall.noConfusion hc
          · exact absurd hc (List.not_mem_nil _)
    · intro nm mt ps hm hmem
      rw [heff] at hmem
      simp only [callEffects, List.mem_cons, List.mem_map] at hmem
      rcases hmem with hmem | ⟨c, hc, hce⟩
      · exact Effect.noConfusion hmem
      · have hcu : c = ProviderCall.filesCreate nm mt ps hm := Effect.providerCall.inj hce
        subst hcu
        rcases List.mem_append.mp hc with hc | hc
        · have hlist := get_playground_folder_id_calls_filesList env st _
            (by rw [hfold]; exact hc)
          simp [ProviderCall.isFilesList] at hlist
        · simp only [List.mem_cons] at hc
          rcases hc with hc | hc | hc
          · exact ProviderCall.noConfusion hc
          · exact (ProviderCall.filesCreate.inj hc).2.2.1
          · exact absurd hc (List.not_mem_nil _)

/-- C10 witness: updating `note.txt` leaves the id/parent structure of the
provider state unchanged. -/
theorem write_never_touches_parents_witness :
    ((write_file envOK worldOK stSample
        { name := "note.txt", content := "hi again", mime_type := "text/plain" }
        (some "secret123") none).2.2.files.map fun g => (g.id, g.parents)) =
      (stSample.files.map fun g => (g.id, g.parents)) :=
  ((write_never_touches_parents envOK worldOK stSample
      { name := "note.txt", content := "hi again", mime_type := "text/plain" }
      (some "secret123") none "fid-play" []
      { creds := credValid, ranInteractiveFlow := false, tokenFileWritten := false }
      (by decide) (by decide) (by decide)).1 fileNote [] (by decide)).2.1

end DrivePlayground

namespace DrivePlayground

/-- C7 counterexample: the deployment token blob is unset and the local
token file exists but holds a stale credential (invalid, not refreshable),
so the interactive flow runs and succeeds — yet the resulting token is NOT
persisted, because the write is additionally guarded on the token file not
existing (line 94: `TOKEN_FILE.exists() is False`). -/
theorem interactive_flow_token_not_persisted :
    pyStrip worldStaleToken.envTokenJson = ""
    ∧ get_drive_service worldStaleToken =
        .ok { creds := credValid, ranInteractiveFlow := true, tokenFileWritten := false } := by
  exact ⟨by decide, by decide⟩

/-- C7 amended: after a successful run of `get_drive_service`, the token
was persisted to the local token file exactly when the interactive flow
ran, the deployment token blob was blank, AND the local token file did not
already exist — the absence of the blob alone is not sufficient. -/
theorem token_persistence_condition (w : AuthWorld) (r : AuthResult)
    (h : get_drive_service w = .ok r) :
    r.tokenFileWritten =
      (r.ranInteractiveFlow && (pyStrip w.envTokenJson == "") && !w.tokenFileExists) := by
  unfold get_drive_service at h
  cases hl : loadInitialCreds w with
  | error e => rw [hl] at h; exact Except.noConfusion h
  | ok creds0 =>
    rw [hl] at h
    dsimp only at h
    cases hrf : refreshStep w creds0 with
    | error e => rw [hrf] at h; exact Except.noConfusion h
    | ok creds1 =>
      rw [hrf] at h
      dsimp only at h
      by_cases hf : needsFlow creds1 = true
      · rw [if_pos hf] at h
        cases hfl : runInteractiveFlow w with
        | error e => rw [hfl] at h; exact Except.noConfusion h
        | ok c =>
          rw [hfl] at h
          dsimp only at h
          have hr := Except.ok.inj h
          subst hr
          simp
      · rw [if_neg hf] at h
        have hr := Except.ok.inj h
        subst hr
        simp

/-- C7 witness: the amended condition evaluated in the stale-token world,
where the flow ran without the blob but the token file existed. -/
theorem token_persistence_condition_witness :
    (AuthResult.tokenFileWritten
        { creds := credValid, ranInteractiveFlow := true, tokenFileWritten := false })
      = ((AuthResult.ranInteractiveFlow
            { creds := credValid, ranInteractiveFlow := true, tokenFileWritten := false })
          && (pyStrip worldStaleToken.envTokenJson == "") && !worldStaleToken.tokenFileExists) :=
  token_persistence_condition worldStaleToken
    { creds := credValid, ranInteractiveFlow := true, tokenFileWritten := false } (by decide)

end DrivePlayground
